import Mathlib

/-!
# Verification of the street-view capturing pipeline core

Shallow embedding of the core components of the repository:
geodesy (`src/backend/utils/geo.py`), the road-point deduplication
(`src/backend/pipeline/road_finder.py`), the viewpoint deriver
(`src/backend/pipeline/viewpoint_generator.py`), the refinement agent
(`src/backend/agents/refinement_agent.py`) and the candidate selector
(`src/lat_long_point_v2/main.py`).

Real-valued (float) quantities are modelled over `ℝ`; the purely
discrete candidate selector is modelled computably (scores over `ℚ`).
-/

namespace StreetView

open Real

/-! ## Geodesy: `src/backend/utils/geo.py` -/

/-- Python `math.atan2 a b`: the angle of the point `(b, a)`, i.e. the
argument of the complex number `b + a*I`. -/
noncomputable def atan2 (a b : ℝ) : ℝ := Complex.arg ⟨b, a⟩

/-- Python `math.radians`. -/
noncomputable def radians (x : ℝ) : ℝ := x * (Real.pi / 180)

/-- Python `math.degrees`. -/
noncomputable def degrees (x : ℝ) : ℝ := x * (180 / Real.pi)

/-- Python `%` on reals with positive modulus: `a - b * floor (a / b)`. -/
noncomputable def pymod (a b : ℝ) : ℝ := a - b * ⌊a / b⌋

/-- `EARTH_RADIUS_M` from `geo.py` (used by `calculate_distance`). -/
def EARTH_RADIUS_M : ℝ := 6371000

/-- `calculate_distance` from `geo.py` (haversine formula). -/
noncomputable def calculate_distance (lat1 lon1 lat2 lon2 : ℝ) : ℝ :=
  let phi1 := radians lat1
  let phi2 := radians lat2
  let dphi := radians (lat2 - lat1)
  let dlambda := radians (lon2 - lon1)
  let a := Real.sin (dphi / 2) ^ 2 +
    Real.cos phi1 * Real.cos phi2 * Real.sin (dlambda / 2) ^ 2
  let c := 2 * atan2 (Real.sqrt a) (Real.sqrt (1 - a))
  EARTH_RADIUS_M * c

/-- `calculate_bearing` from `geo.py`. -/
noncomputable def calculate_bearing (lat1 lon1 lat2 lon2 : ℝ) : ℝ :=
  let lat1_rad := radians lat1
  let lat2_rad := radians lat2
  let lon_diff := radians (lon2 - lon1)
  let x := Real.sin lon_diff * Real.cos lat2_rad
  let y := Real.cos lat1_rad * Real.sin lat2_rad -
    Real.sin lat1_rad * Real.cos lat2_rad * Real.cos lon_diff
  let bearing := degrees (atan2 x y)
  pymod (bearing + 360) 360

/-- `calculate_position_offset` from `geo.py` (destination point, radius
`6378137` m). -/
noncomputable def calculate_position_offset
    (lat lon distance_meters bearing_degrees : ℝ) : ℝ × ℝ :=
  let R : ℝ := 6378137
  let bearing := radians bearing_degrees
  let lat_rad := radians lat
  let lon_rad := radians lon
  let lat2 := Real.arcsin
    (Real.sin lat_rad * Real.cos (distance_meters / R) +
      Real.cos lat_rad * Real.sin (distance_meters / R) * Real.cos bearing)
  let lon2 := lon_rad + atan2
    (Real.sin bearing * Real.sin (distance_meters / R) * Real.cos lat_rad)
    (Real.cos (distance_meters / R) - Real.sin lat_rad * Real.sin lat2)
  (degrees lat2, degrees lon2)

/-- `calculate_optimal_pitch` from `geo.py`; the Python default for
`building_height` is `12.0`, passed explicitly at every call site here. -/
noncomputable def calculate_optimal_pitch (distance building_height : ℝ) : ℝ :=
  let target_height := building_height * 0.5 - 1.6
  let pitch_degrees : ℝ :=
    if 0 < distance ∧ 0 < target_height then
      degrees (Real.arctan (target_height / distance))
    else 0
  let damped : ℝ := if 20 ≤ distance then pitch_degrees * 0.85 else pitch_degrees
  let min_pitch : ℝ := if distance < 20 then 0 else -10
  let max_pitch : ℝ := 30
  min (max damped min_pitch) max_pitch

/-- `calculate_optimal_fov` from `geo.py`; the Python default for
`target_width` is `15.0`, passed explicitly at every call site here. -/
noncomputable def calculate_optimal_fov (distance target_width : ℝ) : ℝ :=
  let effective_width := target_width * 1.25
  let required_fov := 2 * degrees (Real.arctan (effective_width / (2 * max distance 1)))
  let MIN_FOV : ℝ := 40
  let MAX_FOV : ℝ := 90
  min (max required_fov MIN_FOV) MAX_FOV

/-! ## Data model: `src/backend/models/data_classes.py` and
`src/backend/config/settings.py` -/

/-- Numeric part of `Settings` from `settings.py` (API keys and the
road-sampling / LLM string options play no role in the verified core). -/
structure Settings where
  min_distance : ℝ
  max_distance : ℝ
  min_pitch : ℝ
  max_pitch : ℝ
  min_fov : ℝ
  max_fov : ℝ
  max_refinement_iterations : ℕ
  max_candidates_per_building : ℕ

/-- The default values from `settings.py`. -/
noncomputable def defaultSettings : Settings :=
  { min_distance := 8
    max_distance := 65
    min_pitch := -15
    max_pitch := 55
    min_fov := 30
    max_fov := 90
    max_refinement_iterations := 3
    max_candidates_per_building := 10 }

/-- `RoadPoint` dataclass. -/
structure RoadPoint where
  lat : ℝ
  lon : ℝ
  road_type : String
  distance_to_building : ℝ
  road_name : Option String

/-- `Viewpoint` dataclass. -/
structure Viewpoint where
  lat : ℝ
  lon : ℝ
  heading : ℝ
  pitch : ℝ
  fov : ℝ
  distance_to_building : ℝ
  quality_score : ℝ
  pano_id : Option String
  capture_date : Option String
  road_type : String

/-! ## Viewpoint deriver: `src/backend/pipeline/viewpoint_generator.py` -/

/-- `ViewpointGenerator._create_viewpoint`: heading/distance from the
geodesy helpers, pitch/fov from the distance models, then clamped to the
settings bounds (the distance itself is not clamped).  The remaining
`Viewpoint` fields take the Python dataclass defaults. -/
noncomputable def _create_viewpoint
    (s : Settings) (road_point : RoadPoint) (building_lat building_lon : ℝ) :
    Viewpoint :=
  let heading := calculate_bearing road_point.lat road_point.lon building_lat building_lon
  let distance := calculate_distance road_point.lat road_point.lon building_lat building_lon
  let pitch := calculate_optimal_pitch distance 12
  let fov := calculate_optimal_fov distance 15
  let pitch2 := max s.min_pitch (min pitch s.max_pitch)
  let fov2 := max s.min_fov (min fov s.max_fov)
  { lat := road_point.lat
    lon := road_point.lon
    heading := heading
    pitch := pitch2
    fov := fov2
    distance_to_building := distance
    quality_score := 0
    pano_id := none
    capture_date := none
    road_type := road_point.road_type }

/-! ## Road deduplication: `src/backend/pipeline/road_finder.py` -/

open Classical in
/-- One step of `RoadFinder._deduplicate`'s outer loop: `point` is kept
only if no already-kept point lies strictly within `tolerance` meters. -/
noncomputable def dedupStep (tolerance : ℝ) (unique : List RoadPoint)
    (point : RoadPoint) : List RoadPoint :=
  if ∃ existing ∈ unique,
      calculate_distance point.lat point.lon existing.lat existing.lon < tolerance then
    unique
  else
    unique ++ [point]

/-- `RoadFinder._deduplicate` (default `tolerance` is `5.0`, passed
explicitly by the caller here): fold over the points in arrival order. -/
noncomputable def _deduplicate (points : List RoadPoint) (tolerance : ℝ) :
    List RoadPoint :=
  points.foldl (dedupStep tolerance) []

/-! ## Refinement agent: `src/backend/agents/refinement_agent.py`

The LLM oracle is modelled as a function from the (0-based) iteration
index to an optional structured analysis; the street-view renderer is an
abstract function from `Viewpoint` to an abstract URL type `U`. -/

/-- The `current_params` dict of `refine_capture`. -/
structure Params where
  lat : ℝ
  lon : ℝ
  heading : ℝ
  pitch : ℝ
  fov : ℝ
  distance : ℝ

/-- The `view_assessment` part of a parsed oracle response (after the
`.get`-defaulting in `refine_capture`). -/
structure ViewAssessment where
  is_full_view : Bool
  view_confidence : ℝ
  overall_quality : ℤ

/-- The `parameter_adjustments` part of a parsed oracle response (after
the `.get`-defaulting in `refine_capture`), also the `changes` dict of a
`RefinementStep`. -/
structure Adjustments where
  distance_change : ℝ
  pitch_change : ℝ
  fov_change : ℝ

/-- A structured oracle response. -/
structure Analysis where
  view_assessment : ViewAssessment
  parameter_adjustments : Adjustments

/-- `RefinementStep` dataclass (`image_url` kept abstract). -/
structure RefinementStep (U : Type) where
  iteration : ℕ
  image_url : U
  params : Params
  confidence_score : ℝ
  is_full_view : Bool
  overall_quality : ℤ
  changes : Adjustments

/-- The `best_result` dict tracked by `refine_capture`. -/
structure BestResult (U : Type) where
  image_url : U
  params : Params
  quality : ℤ
  confidence : ℝ

/-- The result dict of `refine_capture` / `_fallback_result`
(`final_quality` is present only on the refined branch). -/
structure RefineResult (U : Type) where
  image_url : U
  viewpoint : Viewpoint
  refinement_history : List (RefinementStep U)
  is_refined : Bool
  final_quality : Option ℤ

/-- `RefinementAgent._create_temp_viewpoint`. -/
def _create_temp_viewpoint (params : Params) (original : Viewpoint) : Viewpoint :=
  { lat := params.lat
    lon := params.lon
    heading := params.heading
    pitch := params.pitch
    fov := params.fov
    distance_to_building := params.distance
    quality_score := 0
    pano_id := original.pano_id
    capture_date := none
    road_type := original.road_type }

/-- The best-attempt score from `refine_capture` (line 110):
`score = (1 if is_full_view else 0) * 1000 + quality * 10 - distance`. -/
noncomputable def bestScore (is_full_view : Bool) (quality : ℤ) (distance : ℝ) : ℝ :=
  (if is_full_view then 1 else 0) * 1000 + quality * 10 - distance

open Classical in
/-- `RefinementAgent._apply_adjustments`: add the three deltas, clamp to
the settings bounds, and recompute the position from the building along
the reversed heading when the clamped distance changed. -/
noncomputable def _apply_adjustments (s : Settings) (params : Params)
    (adjustments : Adjustments) (building_lat building_lon : ℝ) : Params :=
  let nd := max s.min_distance
    (min (params.distance + adjustments.distance_change) s.max_distance)
  let npitch := max s.min_pitch
    (min (params.pitch + adjustments.pitch_change) s.max_pitch)
  let nfov := max s.min_fov
    (min (params.fov + adjustments.fov_change) s.max_fov)
  let new_params : Params := { params with distance := nd, pitch := npitch, fov := nfov }
  if nd ≠ params.distance then
    let reverse_bearing := pymod (params.heading + 180) 360
    let q := calculate_position_offset building_lat building_lon nd reverse_bearing
    { new_params with lat := q.1, lon := q.2 }
  else
    new_params

/-- The state threaded through the iterations of `refine_capture`. -/
structure LoopState (U : Type) where
  history : List (RefinementStep U)
  best : Option (BestResult U)
  best_score : ℝ
  current : Params

open Classical in
/-- The `for iteration in range(max_iterations)` loop of
`refine_capture`, recursing on the remaining iteration budget `fuel`
(initially `max_iterations`, so `iteration + fuel = max_iterations`).
A `none` oracle response breaks out of the loop; the early-stop and
convergence checks (`_should_stop` inlined) end it with the state so
far; otherwise the adjusted parameters are used for the next round. -/
noncomputable def refineLoop {U : Type} (s : Settings)
    (oracle : ℕ → Option Analysis) (render : Viewpoint → U)
    (original : Viewpoint) (building_lat building_lon : ℝ)
    (max_iterations : ℕ) : ℕ → ℕ → LoopState U → LoopState U
  | _, 0, st => st
  | iteration, fuel + 1, st =>
    let image_url := render (_create_temp_viewpoint st.current original)
    match oracle iteration with
    | none => st
    | some analysis =>
      let is_full_view := analysis.view_assessment.is_full_view
      let confidence := analysis.view_assessment.view_confidence
      let quality := analysis.view_assessment.overall_quality
      let step : RefinementStep U :=
        { iteration := iteration + 1
          image_url := image_url
          params := st.current
          confidence_score := confidence
          is_full_view := is_full_view
          overall_quality := quality
          changes := analysis.parameter_adjustments }
      let history := st.history ++ [step]
      let score := bestScore is_full_view quality st.current.distance
      let best := if score > st.best_score then
          some { image_url := image_url, params := st.current,
                 quality := quality, confidence := confidence }
        else st.best
      let best_score := if score > st.best_score then score else st.best_score
      if is_full_view = true ∧ 8 ≤ quality then
        { history := history, best := best, best_score := best_score, current := st.current }
      else if max_iterations - 1 ≤ iteration ∨
          (|analysis.parameter_adjustments.distance_change| < 0.1 ∧
           |analysis.parameter_adjustments.pitch_change| < 0.1 ∧
           |analysis.parameter_adjustments.fov_change| < 0.1) then
        { history := history, best := best, best_score := best_score, current := st.current }
      else
        refineLoop s oracle render original building_lat building_lon max_iterations
          (iteration + 1) fuel
          { history := history, best := best, best_score := best_score,
            current := _apply_adjustments s st.current analysis.parameter_adjustments
              building_lat building_lon }

/-- `RefinementAgent._fallback_result`. -/
noncomputable def _fallback_result {U : Type} (render : Viewpoint → U)
    (viewpoint : Viewpoint) (history : List (RefinementStep U)) : RefineResult U :=
  { image_url := render viewpoint
    viewpoint := viewpoint
    refinement_history := history
    is_refined := false
    final_quality := none }

/-- `RefinementAgent.refine_capture` (the `enabled` guard is outside the
verified core; the agent is taken as enabled). -/
noncomputable def refine_capture {U : Type} (s : Settings)
    (oracle : ℕ → Option Analysis) (render : Viewpoint → U)
    (viewpoint : Viewpoint) (building_lat building_lon : ℝ) : RefineResult U :=
  let current_params : Params :=
    { lat := viewpoint.lat
      lon := viewpoint.lon
      heading := viewpoint.heading
      pitch := viewpoint.pitch
      fov := viewpoint.fov
      distance := viewpoint.distance_to_building }
  let max_iterations := s.max_refinement_iterations
  let final := refineLoop s oracle render viewpoint building_lat building_lon
    max_iterations 0 max_iterations
    { history := [], best := none, best_score := -1, current := current_params }
  match final.best with
  | some best =>
    { image_url := best.image_url
      viewpoint := _create_temp_viewpoint best.params viewpoint
      refinement_history := final.history
      is_refined := true
      final_quality := some best.quality }
  | none => _fallback_result render viewpoint final.history

/-! ## Candidate selector: `src/lat_long_point_v2/main.py`

`_select_best_images` only reads the screening fields of each pair; the
viewpoint component is an opaque payload, kept as a type parameter `V`.
Coverage percentages and scores (Python floats subjected only to
addition and comparison) are modelled over `ℚ` so that the selector is
executable. -/

/-- The extended `FaceScreeningResult` consumed by
`_select_best_images`; its fields are the ones constructed in
`agents/face_screening_agent.py` and read in `main.py` (the dataclass
itself lives in the `lat_long_point_v2` models module, outside `src/`). -/
structure ScreeningAssessment where
  is_valid_front_face : Bool
  confidence : ℚ
  clarity_assessment : String
  needs_refinement : Bool
  group_id : Option String
  is_primary_in_group : Option Bool
  candidate_index : Option ℤ
  building_coverage_pct : ℚ
  is_target_building_primary : Bool
  is_road_dominated : Bool
deriving DecidableEq

/-- `score_candidate` from `_select_best_images`. -/
def score_candidate (screening : ScreeningAssessment) : ℚ :=
  let clarity_bonus : ℚ :=
    if screening.clarity_assessment = "excellent" then 30
    else if screening.clarity_assessment = "good" then 20
    else if screening.clarity_assessment = "acceptable" then 10
    else if screening.clarity_assessment = "poor" then 0
    else 0
  let primary_bonus : ℚ := if screening.is_primary_in_group = some true then 15 else 0
  let no_refine_bonus : ℚ := if screening.needs_refinement then 0 else 10
  screening.building_coverage_pct + clarity_bonus + primary_bonus + no_refine_bonus

/-- `screening.group_id or "default"`: Python `or` also maps the falsy
empty string to `"default"`. -/
def effective_group (group_id : Option String) : String :=
  match group_id with
  | none => "default"
  | some g => if g = "" then "default" else g

/-- The diversity-capped selection walk at the end of
`_select_best_images`: accept a candidate only while fewer than 2
accepted candidates share its group, and stop once `max_images` have
been accepted (the size check runs only after an acceptance). -/
def selectLoop {V : Type} (max_images : ℕ) :
    List (V × ScreeningAssessment) → List (V × ScreeningAssessment) →
    (String → ℕ) → List (V × ScreeningAssessment)
  | [], selected, _ => selected
  | c :: rest, selected, group_counts =>
    let group_id := effective_group c.2.group_id
    let current_count := group_counts group_id
    if current_count < 2 then
      let selected2 := selected ++ [c]
      let group_counts2 := Function.update group_counts group_id (current_count + 1)
      if max_images ≤ selected2.length then selected2
      else selectLoop max_images rest selected2 group_counts2
    else
      selectLoop max_images rest selected group_counts

/-- `_select_best_images`: hard filters, fallback to the
front-face-only filter when nothing survives, stable descending sort by
`score_candidate`, then the diversity-capped walk. -/
def _select_best_images {V : Type}
    (screened : List (V × Option ScreeningAssessment)) (max_images : ℕ) :
    List (V × ScreeningAssessment) :=
  let valid_candidates := screened.filterMap fun p =>
    match p.2 with
    | none => none
    | some screening =>
      if screening.is_valid_front_face ∧ screening.is_target_building_primary ∧
          ¬screening.is_road_dominated then
        some (p.1, screening)
      else none
  let valid_candidates2 :=
    if valid_candidates.isEmpty then
      screened.filterMap fun p =>
        match p.2 with
        | none => none
        | some screening =>
          if screening.is_valid_front_face then some (p.1, screening) else none
    else valid_candidates
  let scored := valid_candidates2.mergeSort
    fun a b => decide (score_candidate b.2 ≤ score_candidate a.2)
  selectLoop max_images scored [] (fun _ => 0)

/-! ## Helper lemmas -/

lemma radians_degrees (x : ℝ) : radians (degrees x) = x := by
  unfold radians degrees
  field_simp

lemma radians_sub (x y : ℝ) : radians (x - y) = radians x - radians y := by
  unfold radians
  ring

lemma sin_half_sq (x : ℝ) : Real.sin (x / 2) ^ 2 = (1 - Real.cos x) / 2 := by
  have h1 := Real.cos_two_mul (x / 2)
  have h2 := Real.sin_sq_add_cos_sq (x / 2)
  have hx : 2 * (x / 2) = x := by ring
  rw [hx] at h1
  linarith

lemma cos_half_sq (x : ℝ) : Real.cos (x / 2) ^ 2 = (1 + Real.cos x) / 2 := by
  have h1 := Real.cos_two_mul (x / 2)
  have hx : 2 * (x / 2) = x := by ring
  rw [hx] at h1
  linarith

lemma atan2_sin_cos (t : ℝ) (h1 : -Real.pi < t) (h2 : t ≤ Real.pi) :
    atan2 (Real.sin t) (Real.cos t) = t := by
  unfold atan2
  rw [Complex.mk_eq_add_mul_I, Complex.ofReal_cos, Complex.ofReal_sin]
  exact Complex.arg_cos_add_sin_mul_I ⟨h1, h2⟩

lemma atan2_zero_one : atan2 0 1 = 0 := by
  unfold atan2
  have h : (⟨1, 0⟩ : ℂ) = 1 := by
    rw [Complex.mk_eq_add_mul_I]
    simp
  rw [h, Complex.arg_one]

lemma calculate_distance_self (lat lon : ℝ) : calculate_distance lat lon lat lon = 0 := by
  simp only [calculate_distance, sub_self]
  have h0 : radians 0 = 0 := by simp [radians]
  rw [h0]
  norm_num [atan2_zero_one]

lemma calculate_distance_symm (lat1 lon1 lat2 lon2 : ℝ) :
    calculate_distance lat1 lon1 lat2 lon2 = calculate_distance lat2 lon2 lat1 lon1 := by
  simp only [calculate_distance]
  have e1 : radians (lat1 - lat2) / 2 = -(radians (lat2 - lat1) / 2) := by
    unfold radians
    ring
  have e2 : radians (lon1 - lon2) / 2 = -(radians (lon2 - lon1) / 2) := by
    unfold radians
    ring
  rw [e1, e2, Real.sin_neg, Real.sin_neg]
  ring_nf

/-! ## Claim theorems -/

/-- **C9.** `calculate_optimal_fov` and `calculate_optimal_pitch` are
total for every real-valued distance: the FOV denominator
`2 * max distance 1` is always positive and the result always lies in
`[40, 90]`; the pitch formula never evaluates the arctangent for a
non-positive distance and returns `0` there. -/
theorem fov_pitch_total_and_bounded :
    (∀ distance : ℝ, 40 ≤ calculate_optimal_fov distance 15 ∧
      calculate_optimal_fov distance 15 ≤ 90 ∧ 0 < 2 * max distance 1) ∧
    (∀ distance : ℝ, distance ≤ 0 → calculate_optimal_pitch distance 12 = 0) := by
  constructor
  · intro distance
    refine ⟨?_, ?_, ?_⟩
    · simp only [calculate_optimal_fov]
      exact le_min (le_max_right _ _) (by norm_num)
    · simp only [calculate_optimal_fov]
      exact min_le_right _ _
    · have h1 : (1 : ℝ) ≤ max distance 1 := le_max_right _ _
      linarith
  · intro distance hd
    simp only [calculate_optimal_pitch]
    rw [if_neg, if_neg, if_pos]
    · norm_num
    · linarith
    · intro h
      exact absurd h.1 (not_lt.2 hd)
    · linarith

/-- Witness for C9 at `distance = -1`. -/
theorem fov_pitch_total_and_bounded_witness :
    (-1 : ℝ) ≤ 0 ∧ calculate_optimal_pitch (-1) 12 = 0 ∧
      40 ≤ calculate_optimal_fov (-1) 15 :=
  ⟨by norm_num, fov_pitch_total_and_bounded.2 (-1) (by norm_num),
    (fov_pitch_total_and_bounded.1 (-1)).1⟩

/-- **C2 (counterexample).** With both attempts not full-view, quality
`10` at the maximal in-range distance `65` scores strictly below quality
`9` at the minimal in-range distance `8`: higher quality does *not*
always outscore within equal `is_full_view`. -/
theorem bestScore_quality_not_dominant :
    ¬ (bestScore false 10 65 > bestScore false 9 8) := by
  simp only [bestScore]
  norm_num

/-- **C2 (amended).** For qualities in `1..10` and distances in
`[8, 65]`: `is_full_view = true` always outscores `false`; with equal
`is_full_view` and equal quality, the strictly smaller distance wins;
and with equal `is_full_view` a strictly higher quality wins exactly
when its distance excess stays below `10·(quality difference)` (so
quality alone does not dominate distance). -/
theorem bestScore_ordering (fv : Bool) (q q' : ℤ) (d d' : ℝ)
    (hq1 : 1 ≤ q) (hq2 : q ≤ 10) (hq1' : 1 ≤ q') (hq2' : q' ≤ 10)
    (hd1 : 8 ≤ d) (hd2 : d ≤ 65) (hd1' : 8 ≤ d') (hd2' : d' ≤ 65) :
    bestScore true q d > bestScore false q' d' ∧
    (q = q' → d < d' → bestScore fv q d > bestScore fv q' d') ∧
    (q' < q → d - d' < 10 * ((q : ℝ) - (q' : ℝ)) →
      bestScore fv q d > bestScore fv q' d') := by
  have hq : (1 : ℝ) ≤ (q : ℝ) := by exact_mod_cast hq1
  have hq' : (q' : ℝ) ≤ 10 := by exact_mod_cast hq2'
  refine ⟨?_, ?_, ?_⟩
  · simp only [bestScore]
    norm_num
    linarith
  · intro hqq hdd
    subst hqq
    cases fv <;> · simp only [bestScore]; linarith
  · intro hlt hdd
    cases fv <;> · simp only [bestScore]; push_cast; linarith

/-- Witness for C2 at `fv = false`, `q = 5`, `q' = 4`, `d = 20`,
`d' = 21`. -/
theorem bestScore_ordering_witness :
    bestScore true 5 20 > bestScore false 4 21 ∧
    ((5 : ℤ) = 4 → (20 : ℝ) < 21 → bestScore false 5 20 > bestScore false 4 21) ∧
    ((4 : ℤ) < 5 → (20 : ℝ) - 21 < 10 * ((5 : ℝ) - (4 : ℝ)) →
      bestScore false 5 20 > bestScore false 4 21) :=
  bestScore_ordering false 5 4 20 21 (by norm_num) (by norm_num) (by norm_num)
    (by norm_num) (by norm_num) (by norm_num) (by norm_num) (by norm_num)

lemma clamp_mem (lo hi x : ℝ) (h : lo ≤ hi) :
    lo ≤ max lo (min x hi) ∧ max lo (min x hi) ≤ hi :=
  ⟨le_max_left _ _, max_le h (min_le_right _ _)⟩

lemma _apply_adjustments_distance (s : Settings) (params : Params)
    (adjustments : Adjustments) (building_lat building_lon : ℝ) :
    (_apply_adjustments s params adjustments building_lat building_lon).distance =
      max s.min_distance (min (params.distance + adjustments.distance_change) s.max_distance) := by
  simp only [_apply_adjustments]
  split <;> rfl

lemma _apply_adjustments_pitch (s : Settings) (params : Params)
    (adjustments : Adjustments) (building_lat building_lon : ℝ) :
    (_apply_adjustments s params adjustments building_lat building_lon).pitch =
      max s.min_pitch (min (params.pitch + adjustments.pitch_change) s.max_pitch) := by
  simp only [_apply_adjustments]
  split <;> rfl

lemma _apply_adjustments_fov (s : Settings) (params : Params)
    (adjustments : Adjustments) (building_lat building_lon : ℝ) :
    (_apply_adjustments s params adjustments building_lat building_lon).fov =
      max s.min_fov (min (params.fov + adjustments.fov_change) s.max_fov) := by
  simp only [_apply_adjustments]
  split <;> rfl

lemma _apply_adjustments_heading (s : Settings) (params : Params)
    (adjustments : Adjustments) (building_lat building_lon : ℝ) :
    (_apply_adjustments s params adjustments building_lat building_lon).heading =
      params.heading := by
  simp only [_apply_adjustments]
  split <;> rfl

/-- A road point sitting exactly at the building coordinates. -/
noncomputable def samplePoint : RoadPoint :=
  { lat := 0, lon := 0, road_type := "road", distance_to_building := 0, road_name := none }

/-- **C1 (counterexample).** The viewpoint deriver does not clamp the
distance: for a road point at the building's own coordinates the
emitted viewpoint has `distance_to_building = 0`, outside
`[min_distance, max_distance] = [8, 65]`. -/
theorem create_viewpoint_distance_escapes_bounds :
    ¬ (defaultSettings.min_distance ≤
        (_create_viewpoint defaultSettings samplePoint 0 0).distance_to_building ∧
       (_create_viewpoint defaultSettings samplePoint 0 0).distance_to_building ≤
        defaultSettings.max_distance) := by
  intro h
  have hd : (_create_viewpoint defaultSettings samplePoint 0 0).distance_to_building =
      calculate_distance 0 0 0 0 := rfl
  rw [hd, calculate_distance_self] at h
  have h8 : defaultSettings.min_distance = 8 := rfl
  rw [h8] at h
  norm_num at h

/-- **C1 (amended).** Every viewpoint emitted by the deriver satisfies
the pitch and FOV bounds, and every parameter set produced by a
refinement adjustment satisfies the distance, pitch and FOV bounds
(the deriver's `distance_to_building` itself is the raw great-circle
distance and is not clamped). -/
theorem emitted_viewpoint_bounds (s : Settings) (road_point : RoadPoint)
    (building_lat building_lon : ℝ) (params : Params) (adjustments : Adjustments)
    (hp : s.min_pitch ≤ s.max_pitch) (hf : s.min_fov ≤ s.max_fov)
    (hd : s.min_distance ≤ s.max_distance) :
    (s.min_pitch ≤ (_create_viewpoint s road_point building_lat building_lon).pitch ∧
     (_create_viewpoint s road_point building_lat building_lon).pitch ≤ s.max_pitch ∧
     s.min_fov ≤ (_create_viewpoint s road_point building_lat building_lon).fov ∧
     (_create_viewpoint s road_point building_lat building_lon).fov ≤ s.max_fov) ∧
    (s.min_distance ≤ (_apply_adjustments s params adjustments building_lat building_lon).distance ∧
     (_apply_adjustments s params adjustments building_lat building_lon).distance ≤ s.max_distance ∧
     s.min_pitch ≤ (_apply_adjustments s params adjustments building_lat building_lon).pitch ∧
     (_apply_adjustments s params adjustments building_lat building_lon).pitch ≤ s.max_pitch ∧
     s.min_fov ≤ (_apply_adjustments s params adjustments building_lat building_lon).fov ∧
     (_apply_adjustments s params adjustments building_lat building_lon).fov ≤ s.max_fov) := by
  constructor
  · have h1 := clamp_mem s.min_pitch s.max_pitch
      (calculate_optimal_pitch (calculate_distance road_point.lat road_point.lon
        building_lat building_lon) 12) hp
    have h2 := clamp_mem s.min_fov s.max_fov
      (calculate_optimal_fov (calculate_distance road_point.lat road_point.lon
        building_lat building_lon) 15) hf
    exact ⟨h1.1, h1.2, h2.1, h2.2⟩
  · rw [_apply_adjustments_distance, _apply_adjustments_pitch, _apply_adjustments_fov]
    have h1 := clamp_mem s.min_distance s.max_distance
      (params.distance + adjustments.distance_change) hd
    have h2 := clamp_mem s.min_pitch s.max_pitch
      (params.pitch + adjustments.pitch_change) hp
    have h3 := clamp_mem s.min_fov s.max_fov
      (params.fov + adjustments.fov_change) hf
    exact ⟨h1.1, h1.2, h2.1, h2.2, h3.1, h3.2⟩

/-- Witness for the amended C1 at the default settings. -/
theorem emitted_viewpoint_bounds_witness :
    defaultSettings.min_pitch ≤
      (_create_viewpoint defaultSettings samplePoint 0 0).pitch ∧
    defaultSettings.min_distance ≤
      (_apply_adjustments defaultSettings
        { lat := 0, lon := 0, heading := 0, pitch := 0, fov := 80, distance := 20 }
        { distance_change := 5, pitch_change := 0, fov_change := 0 } 0 0).distance :=
  ⟨(emitted_viewpoint_bounds defaultSettings samplePoint 0 0
      { lat := 0, lon := 0, heading := 0, pitch := 0, fov := 80, distance := 20 }
      { distance_change := 5, pitch_change := 0, fov_change := 0 }
      (by norm_num [defaultSettings]) (by norm_num [defaultSettings])
      (by norm_num [defaultSettings])).1.1,
   (emitted_viewpoint_bounds defaultSettings samplePoint 0 0
      { lat := 0, lon := 0, heading := 0, pitch := 0, fov := 80, distance := 20 }
      { distance_change := 5, pitch_change := 0, fov_change := 0 }
      (by norm_num [defaultSettings]) (by norm_num [defaultSettings])
      (by norm_num [defaultSettings])).2.1⟩

/-- The pairwise separation relation guaranteed by deduplication. -/
def FarApart (tolerance : ℝ) (p q : RoadPoint) : Prop :=
  tolerance ≤ calculate_distance p.lat p.lon q.lat q.lon ∧
  tolerance ≤ calculate_distance q.lat q.lon p.lat p.lon

lemma dedup_fold_invariant (tolerance : ℝ) :
    ∀ (points acc : List RoadPoint),
      List.Pairwise (FarApart tolerance) acc →
      List.Pairwise (FarApart tolerance) (points.foldl (dedupStep tolerance) acc) ∧
      ∃ kept, points.foldl (dedupStep tolerance) acc = acc ++ kept ∧
        kept.Sublist points := by
  intro points
  induction points with
  | nil =>
    intro acc hacc
    exact ⟨hacc, [], by simp, List.Sublist.refl _⟩
  | cons p rest ih =>
    intro acc hacc
    rw [List.foldl_cons]
    by_cases h : ∃ existing ∈ acc,
        calculate_distance p.lat p.lon existing.lat existing.lon < tolerance
    · have hstep : dedupStep tolerance acc p = acc := by
        simp only [dedupStep]
        rw [if_pos h]
      rw [hstep]
      obtain ⟨hpw, kept, hk, hsub⟩ := ih acc hacc
      exact ⟨hpw, kept, hk, hsub.trans (List.sublist_cons_self p rest)⟩
    · have hstep : dedupStep tolerance acc p = acc ++ [p] := by
        simp only [dedupStep]
        rw [if_neg h]
      rw [hstep]
      have hacc2 : List.Pairwise (FarApart tolerance) (acc ++ [p]) := by
        rw [List.pairwise_append]
        refine ⟨hacc, List.pairwise_singleton _ _, ?_⟩
        intro a ha b hb
        rw [List.mem_singleton] at hb
        subst hb
        push_neg at h
        have h1 := h a ha
        constructor
        · rw [calculate_distance_symm]
          exact h1
        · exact h1
      obtain ⟨hpw, kept, hk, hsub⟩ := ih (acc ++ [p]) hacc2
      refine ⟨hpw, p :: kept, ?_, List.Sublist.cons₂ p hsub⟩
      rw [hk, List.append_assoc]
      rfl

/-- **C4.** The deduplicated output is a subsequence of the input (the
points are examined in arrival order and a point is kept only when it
is at least `tolerance` from every already-kept point), and any two
points at distinct positions of the output are at great-circle distance
at least `tolerance` from each other (in both argument orders). -/
theorem deduplicate_pairwise_separated (points : List RoadPoint) (tolerance : ℝ) :
    (_deduplicate points tolerance).Sublist points ∧
    List.Pairwise (FarApart tolerance) (_deduplicate points tolerance) := by
  obtain ⟨hpw, kept, hk, hsub⟩ :=
    dedup_fold_invariant tolerance points [] (List.Pairwise.nil)
  refine ⟨?_, hpw⟩
  unfold _deduplicate
  rw [hk, List.nil_append]
  exact hsub

/-- Number of selected candidates falling in effective group `g`. -/
def groupCount {V : Type} (g : String) (l : List (V × ScreeningAssessment)) : ℕ :=
  l.countP fun c => decide (effective_group c.2.group_id = g)

lemma selectLoop_append {V : Type} (max_images : ℕ) :
    ∀ (l selected : List (V × ScreeningAssessment)) (group_counts : String → ℕ),
      ∃ s, selectLoop max_images l selected group_counts = selected ++ s := by
  intro l
  induction l with
  | nil =>
    intro selected group_counts
    exact ⟨[], by simp [selectLoop]⟩
  | cons c rest ih =>
    intro selected group_counts
    simp only [selectLoop]
    by_cases h : group_counts (effective_group c.2.group_id) < 2
    · rw [if_pos h]
      by_cases h2 : max_images ≤ (selected ++ [c]).length
      · rw [if_pos h2]
        exact ⟨[c], rfl⟩
      · rw [if_neg h2]
        obtain ⟨s, hs⟩ := ih (selected ++ [c]) _
        refine ⟨c :: s, ?_⟩
        rw [hs, List.append_assoc]
        rfl
    · rw [if_neg h]
      exact ih selected group_counts

lemma selectLoop_length {V : Type} (max_images : ℕ) :
    ∀ (l selected : List (V × ScreeningAssessment)) (group_counts : String → ℕ),
      selected.length < max max_images 1 →
      (selectLoop max_images l selected group_counts).length ≤ max max_images 1 := by
  intro l
  induction l with
  | nil =>
    intro selected group_counts hlen
    simpa [selectLoop] using le_of_lt hlen
  | cons c rest ih =>
    intro selected group_counts hlen
    simp only [selectLoop]
    by_cases h : group_counts (effective_group c.2.group_id) < 2
    · rw [if_pos h]
      by_cases h2 : max_images ≤ (selected ++ [c]).length
      · rw [if_pos h2]
        simpa using hlen
      · rw [if_neg h2]
        refine ih _ _ ?_
        push_neg at h2
        simp only [List.length_append, List.length_singleton] at h2 ⊢
        exact lt_of_lt_of_le h2 (Nat.le_max_left _ _)
    · rw [if_neg h]
      exact ih _ _ hlen

lemma selectLoop_groupCount {V : Type} (max_images : ℕ) :
    ∀ (l selected : List (V × ScreeningAssessment)) (group_counts : String → ℕ),
      (∀ g, groupCount g selected = group_counts g) →
      (∀ g, group_counts g ≤ 2) →
      ∀ g, groupCount g (selectLoop max_images l selected group_counts) ≤ 2 := by
  intro l
  induction l with
  | nil =>
    intro selected group_counts heq hle g
    simp only [selectLoop]
    rw [heq g]
    exact hle g
  | cons c rest ih =>
    intro selected group_counts heq hle g
    simp only [selectLoop]
    by_cases h : group_counts (effective_group c.2.group_id) < 2
    · rw [if_pos h]
      have heq2 : ∀ g2, groupCount g2 (selected ++ [c]) =
          Function.update group_counts (effective_group c.2.group_id)
            (group_counts (effective_group c.2.group_id) + 1) g2 := by
        intro g2
        by_cases hg : effective_group c.2.group_id = g2
        · subst hg
          rw [Function.update_same]
          have h0 := heq (effective_group c.2.group_id)
          simp only [groupCount] at h0 ⊢
          simp only [List.countP_append, List.countP_cons, List.countP_nil]
          rw [h0]
          simp
        · rw [Function.update_noteq (Ne.symm hg)]
          have h0 := heq g2
          simp only [groupCount] at h0 ⊢
          simp only [List.countP_append, List.countP_cons, List.countP_nil]
          rw [h0]
          have hd : decide (effective_group c.2.group_id = g2) = false := by
            simpa using hg
          rw [hd]
          simp
      have hle2 : ∀ g2, Function.update group_counts (effective_group c.2.group_id)
          (group_counts (effective_group c.2.group_id) + 1) g2 ≤ 2 := by
        intro g2
        by_cases hg : effective_group c.2.group_id = g2
        · subst hg
          rw [Function.update_same]
          omega
        · rw [Function.update_noteq (Ne.symm hg)]
          exact hle g2
      by_cases h2 : max_images ≤ (selected ++ [c]).length
      · rw [if_pos h2]
        rw [heq2 g]
        exact hle2 g
      · rw [if_neg h2]
        exact ih _ _ heq2 hle2 g
    · rw [if_neg h]
      exact ih _ _ heq hle g

lemma select_best_images_groupCount {V : Type}
    (screened : List (V × Option ScreeningAssessment)) (max_images : ℕ)
    (g : String) :
    groupCount g (_select_best_images screened max_images) ≤ 2 := by
  simp only [_select_best_images]
  exact selectLoop_groupCount max_images _ [] (fun _ => 0)
    (fun g2 => rfl) (fun g2 => by simp) g

/-- **C5 (amended).** For every input the selector returns at most
`max maxImages 1` candidates (at most `maxImages` whenever
`maxImages ≥ 1`; with `maxImages = 0` one candidate can still slip out
because the size check runs only after an acceptance), and no
`group_id` value occurs more than twice among the selected
assessments. -/
theorem select_best_images_length_and_diversity {V : Type}
    (screened : List (V × Option ScreeningAssessment)) (max_images : ℕ) :
    (_select_best_images screened max_images).length ≤ max max_images 1 ∧
    ∀ g : Option String,
      (_select_best_images screened max_images).countP
        (fun c => decide (c.2.group_id = g)) ≤ 2 := by
  constructor
  · simp only [_select_best_images]
    exact selectLoop_length max_images _ [] (fun _ => 0)
      (by simp [Nat.lt_of_lt_of_le Nat.zero_lt_one (Nat.le_max_right max_images 1)])
  · intro g
    have hmono : (_select_best_images screened max_images).countP
        (fun c => decide (c.2.group_id = g)) ≤
        groupCount (effective_group g) (_select_best_images screened max_images) := by
      apply List.countP_mono_left
      intro x _ hx
      rw [decide_eq_true_eq] at hx ⊢
      rw [hx]
    exact le_trans hmono (select_best_images_groupCount screened max_images _)

/-- A valid front-face assessment used in concrete evaluations. -/
def sampleAssessment : ScreeningAssessment :=
  { is_valid_front_face := true
    confidence := 1
    clarity_assessment := "good"
    needs_refinement := false
    group_id := none
    is_primary_in_group := some true
    candidate_index := some 0
    building_coverage_pct := 80
    is_target_building_primary := true
    is_road_dominated := false }

/-- **C5 (counterexample).** With `maxImages = 0` and one valid
candidate, the selector still returns one candidate: the returned
length is not `≤ maxImages` for every input. -/
theorem select_best_images_zero_budget :
    ¬ ((_select_best_images
        [(((), some sampleAssessment) : Unit × Option ScreeningAssessment)] 0).length ≤ 0) := by
  have hsel : _select_best_images
      [(((), some sampleAssessment) : Unit × Option ScreeningAssessment)] 0 =
      [((), sampleAssessment)] := by
    simp only [_select_best_images]
    norm_num [sampleAssessment, List.filterMap, List.mergeSort_singleton, selectLoop,
      effective_group]
  rw [hsel]
  norm_num

/-- **C10.** A missing (`None`) `group_id` is counted under the shared
effective key `"default"`, and consequently at most 2 selected
candidates have a missing `group_id`, for every input. -/
theorem missing_group_id_capped {V : Type}
    (screened : List (V × Option ScreeningAssessment)) (max_images : ℕ) :
    effective_group none = "default" ∧
    (_select_best_images screened max_images).countP
      (fun c => decide (c.2.group_id = (none : Option String))) ≤ 2 := by
  refine ⟨rfl, ?_⟩
  have hmono : (_select_best_images screened max_images).countP
      (fun c => decide (c.2.group_id = (none : Option String))) ≤
      groupCount "default" (_select_best_images screened max_images) := by
    apply List.countP_mono_left
    intro x _ hx
    rw [decide_eq_true_eq] at hx ⊢
    rw [hx]
    rfl
  exact le_trans hmono (select_best_images_groupCount screened max_images _)

/-- **C8.** Whenever some candidate carries a screening with
`is_valid_front_face = true`, the selector's output is non-empty: if the
three hard filters reject everything, the front-face-only fallback list
is used instead. -/
theorem select_best_images_nonempty {V : Type}
    (screened : List (V × Option ScreeningAssessment)) (max_images : ℕ)
    (h : ∃ p ∈ screened, ∃ sc, p.2 = some sc ∧ sc.is_valid_front_face = true) :
    _select_best_images screened max_images ≠ [] := by
  simp only [_select_best_images]
  set f1 : (V × Option ScreeningAssessment) → Option (V × ScreeningAssessment) :=
    fun p => match p.2 with
      | none => none
      | some screening =>
        if screening.is_valid_front_face ∧ screening.is_target_building_primary ∧
            ¬screening.is_road_dominated then
          some (p.1, screening)
        else none with hf1
  set valid := screened.filterMap f1 with hvalid
  have hvalid2 : ¬ (if valid.isEmpty = true then
      screened.filterMap (fun p => match p.2 with
        | none => none
        | some screening =>
          if screening.is_valid_front_face then some (p.1, screening) else none)
      else valid) = [] := by
    obtain ⟨p, hp, sc, hpsc, hface⟩ := h
    by_cases he : valid.isEmpty = true
    · rw [if_pos he]
      intro hnil
      have hmem : (p.1, sc) ∈ screened.filterMap (fun p => match p.2 with
          | none => none
          | some screening =>
            if screening.is_valid_front_face then some (p.1, screening) else none) := by
        rw [List.mem_filterMap]
        refine ⟨p, hp, ?_⟩
        rw [hpsc]
        simp [hface]
      rw [hnil] at hmem
      exact List.not_mem_nil _ hmem
    · rw [if_neg he]
      intro hnil
      rw [hnil] at he
      exact he rfl
  set valid2 := (if valid.isEmpty = true then
      screened.filterMap (fun p => match p.2 with
        | none => none
        | some screening =>
          if screening.is_valid_front_face then some (p.1, screening) else none)
      else valid) with hvalid2def
  set scored := valid2.mergeSort
    (fun a b => decide (score_candidate b.2 ≤ score_candidate a.2)) with hscored
  have hscored_ne : scored ≠ [] := by
    intro hnil
    apply hvalid2
    have hlen := @List.length_mergeSort _
      (fun a b => decide (score_candidate b.2 ≤ score_candidate a.2)) valid2
    rw [← hscored, hnil] at hlen
    exact List.length_eq_zero.mp hlen.symm
  obtain ⟨c, rest, hcr⟩ := List.exists_cons_of_ne_nil hscored_ne
  rw [hcr]
  simp only [selectLoop]
  rw [if_pos (by simp : (fun _ : String => 0) (effective_group c.2.group_id) < 2)]
  by_cases h2 : max_images ≤ (([] : List (V × ScreeningAssessment)) ++ [c]).length
  · rw [if_pos h2]
    simp
  · rw [if_neg h2]
    obtain ⟨s, hs⟩ := selectLoop_append max_images rest ([] ++ [c]) _
    rw [hs]
    simp

/-- Witness for C8: one valid front-face candidate yields a non-empty
selection. -/
theorem select_best_images_nonempty_witness :
    (∃ p ∈ [(((), some sampleAssessment) : Unit × Option ScreeningAssessment)],
      ∃ sc, p.2 = some sc ∧ sc.is_valid_front_face = true) ∧
    _select_best_images
      [(((), some sampleAssessment) : Unit × Option ScreeningAssessment)] 3 ≠ [] :=
  ⟨⟨((), some sampleAssessment), List.mem_singleton.mpr rfl,
      sampleAssessment, rfl, rfl⟩,
    select_best_images_nonempty _ 3
      ⟨((), some sampleAssessment), List.mem_singleton.mpr rfl,
        sampleAssessment, rfl, rfl⟩⟩

lemma atan2_one_zero : atan2 1 0 = Real.pi / 2 := by
  unfold atan2
  have h : (⟨0, 1⟩ : ℂ) = Complex.I := by
    rw [Complex.mk_eq_add_mul_I]
    simp
  rw [h, Complex.arg_I]

lemma degrees_zero : degrees 0 = 0 := by
  simp [degrees]

lemma degrees_pi_div_two : degrees (Real.pi / 2) = 90 := by
  unfold degrees
  field_simp
  ring

lemma degrees_pi : degrees Real.pi = 180 := by
  unfold degrees
  field_simp

lemma bearing_pole_to_east : calculate_bearing 90 0 0 90 = 90 := by
  simp only [calculate_bearing]
  have e1 : radians ((90 : ℝ) - 0) = Real.pi / 2 := by
    unfold radians
    ring
  have e2 : radians (0 : ℝ) = 0 := by
    simp [radians]
  have e3 : radians (90 : ℝ) = Real.pi / 2 := by
    unfold radians
    ring
  rw [e1, e2, e3, Real.sin_pi_div_two, Real.cos_zero, Real.cos_pi_div_two,
    Real.sin_zero]
  norm_num [atan2_one_zero, degrees_pi_div_two, pymod]

lemma bearing_equator_to_pole : calculate_bearing 0 90 90 0 = 0 := by
  simp only [calculate_bearing]
  have e1 : radians ((0 : ℝ) - 90) = -(Real.pi / 2) := by
    unfold radians
    ring
  have e2 : radians (0 : ℝ) = 0 := by
    simp [radians]
  have e3 : radians (90 : ℝ) = Real.pi / 2 := by
    unfold radians
    ring
  rw [e1, e2, e3, Real.sin_neg, Real.cos_neg, Real.sin_pi_div_two,
    Real.cos_pi_div_two, Real.sin_zero, Real.cos_zero]
  norm_num [atan2_zero_one, degrees_zero, pymod]

/-- **C3 (counterexample).** For the distinct valid points
`A = (90, 0)` and `B = (0, 90)`, `calculate_bearing A B = 90` while
`calculate_bearing B A = 0`: the two bearings differ by `90°`, not by
`180°` modulo `360°` (±1e-6): the initial great-circle bearing is not
antisymmetric in general. -/
theorem bearing_not_antisymmetric :
    (((90 : ℝ), (0 : ℝ)) ≠ ((0 : ℝ), (90 : ℝ))) ∧
    ¬ ∃ k : ℤ, |calculate_bearing 90 0 0 90 - calculate_bearing 0 90 90 0 -
        180 - 360 * (k : ℝ)| ≤ 1e-6 := by
  constructor
  · intro h
    rw [Prod.ext_iff] at h
    norm_num at h
  · rintro ⟨k, hk⟩
    rw [bearing_pole_to_east, bearing_equator_to_pole] at hk
    have h1 := abs_le.mp hk
    rcases le_or_lt 0 k with h | h
    · have hc : (0 : ℝ) ≤ (k : ℝ) := by exact_mod_cast h
      have := h1.2
      nlinarith [h1.1]
    · have hc : (k : ℝ) ≤ -1 := by
        have : k ≤ -1 := by omega
        exact_mod_cast this
      nlinarith [h1.2]

lemma bearing_same_lon_toward_north (lat1 lat2 lon : ℝ)
    (h1 : -90 < lat1) (h2 : lat2 < 90) (hlt : lat1 < lat2) :
    calculate_bearing lat1 lon lat2 lon = 0 := by
  simp only [calculate_bearing]
  have e0 : radians (lon - lon) = 0 := by
    simp [radians]
  rw [e0, Real.sin_zero, Real.cos_zero]
  have hy : Real.cos (radians lat1) * Real.sin (radians lat2) -
      Real.sin (radians lat1) * Real.cos (radians lat2) * 1 =
      Real.sin (radians lat2 - radians lat1) := by
    rw [Real.sin_sub]
    ring
  rw [hy, zero_mul]
  have hdiff : radians lat2 - radians lat1 = (lat2 - lat1) * (Real.pi / 180) := by
    unfold radians
    ring
  have hpos : 0 < Real.sin (radians lat2 - radians lat1) := by
    apply Real.sin_pos_of_pos_of_lt_pi
    · rw [hdiff]
      have hπ := Real.pi_pos
      apply mul_pos (by linarith)
      positivity
    · rw [hdiff]
      have hπ := Real.pi_pos
      nlinarith
  have hx : atan2 0 (Real.sin (radians lat2 - radians lat1)) = 0 := by
    unfold atan2
    have hmk : (⟨Real.sin (radians lat2 - radians lat1), 0⟩ : ℂ) =
        ((Real.sin (radians lat2 - radians lat1) : ℝ) : ℂ) := by
      rw [Complex.mk_eq_add_mul_I]
      simp
    rw [hmk]
    exact Complex.arg_ofReal_of_nonneg (le_of_lt hpos)
  rw [hx, degrees_zero]
  norm_num [pymod]

lemma bearing_same_lon_toward_south (lat1 lat2 lon : ℝ)
    (h1 : -90 < lat2) (h2 : lat1 < 90) (hlt : lat2 < lat1) :
    calculate_bearing lat1 lon lat2 lon = 180 := by
  simp only [calculate_bearing]
  have e0 : radians (lon - lon) = 0 := by
    simp [radians]
  rw [e0, Real.sin_zero, Real.cos_zero]
  have hy : Real.cos (radians lat1) * Real.sin (radians lat2) -
      Real.sin (radians lat1) * Real.cos (radians lat2) * 1 =
      Real.sin (radians lat2 - radians lat1) := by
    rw [Real.sin_sub]
    ring
  rw [hy, zero_mul]
  have hdiff : radians lat1 - radians lat2 = (lat1 - lat2) * (Real.pi / 180) := by
    unfold radians
    ring
  have hneg : Real.sin (radians lat2 - radians lat1) < 0 := by
    have hpos : 0 < Real.sin (radians lat1 - radians lat2) := by
      apply Real.sin_pos_of_pos_of_lt_pi
      · rw [hdiff]
        have hπ := Real.pi_pos
        apply mul_pos (by linarith)
        positivity
      · rw [hdiff]
        have hπ := Real.pi_pos
        nlinarith
    have : radians lat2 - radians lat1 = -(radians lat1 - radians lat2) := by ring
    rw [this, Real.sin_neg]
    linarith
  have hx : atan2 0 (Real.sin (radians lat2 - radians lat1)) = Real.pi := by
    unfold atan2
    have hmk : (⟨Real.sin (radians lat2 - radians lat1), 0⟩ : ℂ) =
        ((Real.sin (radians lat2 - radians lat1) : ℝ) : ℂ) := by
      rw [Complex.mk_eq_add_mul_I]
      simp
    rw [hmk]
    exact Complex.arg_ofReal_of_neg hneg
  rw [hx, degrees_pi]
  norm_num [pymod]

/-- **C3 (amended).** For two distinct points on the same meridian with
latitudes strictly between `-90°` and `90°`, the two bearings do differ
by exactly `180°` modulo `360°` (hence within the `1e-6` tolerance);
for general pairs of distinct points the relation fails. -/
theorem bearing_same_meridian_antisymmetric (lat1 lat2 lon : ℝ)
    (h1a : -90 < lat1) (h1b : lat1 < 90) (h2a : -90 < lat2) (h2b : lat2 < 90)
    (hne : lat1 ≠ lat2) :
    ∃ k : ℤ, |calculate_bearing lat1 lon lat2 lon -
      calculate_bearing lat2 lon lat1 lon - 180 - 360 * (k : ℝ)| ≤ 1e-6 := by
  rcases hne.lt_or_lt with h | h
  · refine ⟨-1, ?_⟩
    rw [bearing_same_lon_toward_north lat1 lat2 lon h1a h2b h,
      bearing_same_lon_toward_south lat2 lat1 lon h1a h2b h]
    norm_num
  · refine ⟨0, ?_⟩
    rw [bearing_same_lon_toward_south lat1 lat2 lon h2a h1b h,
      bearing_same_lon_toward_north lat2 lat1 lon h2a h1b h]
    norm_num

/-- Witness for the amended C3 at `(0, 5)` and `(10, 5)`. -/
theorem bearing_same_meridian_antisymmetric_witness :
    ∃ k : ℤ, |calculate_bearing 0 5 10 5 - calculate_bearing 10 5 0 5 -
      180 - 360 * (k : ℝ)| ≤ 1e-6 :=
  bearing_same_meridian_antisymmetric 0 10 5 (by norm_num) (by norm_num)
    (by norm_num) (by norm_num) (by norm_num)

/-- The loop state at entry of `refine_capture`'s iteration loop. -/
noncomputable def initialState {U : Type} (viewpoint : Viewpoint) : LoopState U :=
  { history := []
    best := none
    best_score := -1
    current :=
      { lat := viewpoint.lat
        lon := viewpoint.lon
        heading := viewpoint.heading
        pitch := viewpoint.pitch
        fov := viewpoint.fov
        distance := viewpoint.distance_to_building } }

lemma refineLoop_none {U : Type} (s : Settings) (oracle : ℕ → Option Analysis)
    (render : Viewpoint → U) (original : Viewpoint) (building_lat building_lon : ℝ)
    (max_iterations i : ℕ) (h : oracle i = none) :
    ∀ (fuel : ℕ) (st : LoopState U),
      refineLoop s oracle render original building_lat building_lon
        max_iterations i fuel st = st := by
  intro fuel st
  cases fuel with
  | zero => rfl
  | succ fuel => simp only [refineLoop, h]

lemma refineLoop_history_shape {U : Type} (s : Settings)
    (oracle : ℕ → Option Analysis) (render : Viewpoint → U) (original : Viewpoint)
    (building_lat building_lon : ℝ) (max_iterations : ℕ) :
    ∀ (fuel i : ℕ) (st : LoopState U),
      ∃ extra,
        (refineLoop s oracle render original building_lat building_lon
          max_iterations i fuel st).history = st.history ++ extra ∧
        ∀ step ∈ extra, ∃ j, i ≤ j ∧ step.iteration = j + 1 ∧
          (oracle j).isSome = true := by
  intro fuel
  induction fuel with
  | zero =>
    intro i st
    exact ⟨[], by simp [refineLoop], by simp⟩
  | succ fuel ih =>
    intro i st
    cases ho : oracle i with
    | none =>
      simp only [refineLoop, ho]
      exact ⟨[], by simp, by simp⟩
    | some analysis =>
      simp only [refineLoop, ho]
      by_cases h1 : analysis.view_assessment.is_full_view = true ∧
          8 ≤ analysis.view_assessment.overall_quality
      · rw [if_pos h1]
        refine ⟨_, rfl, ?_⟩
        intro step hstep
        rw [List.mem_singleton] at hstep
        subst hstep
        exact ⟨i, le_refl i, rfl, by rw [ho]; rfl⟩
      · rw [if_neg h1]
        by_cases h2 : max_iterations - 1 ≤ i ∨
            (|analysis.parameter_adjustments.distance_change| < 0.1 ∧
             |analysis.parameter_adjustments.pitch_change| < 0.1 ∧
             |analysis.parameter_adjustments.fov_change| < 0.1)
        · rw [if_pos h2]
          refine ⟨_, rfl, ?_⟩
          intro step hstep
          rw [List.mem_singleton] at hstep
          subst hstep
          exact ⟨i, le_refl i, rfl, by rw [ho]; rfl⟩
        · rw [if_neg h2]
          obtain ⟨extra, hext, hprop⟩ := ih (i + 1) _
          rw [hext]
          refine ⟨_, by rw [List.append_assoc], ?_⟩
          intro step hstep
          rw [List.mem_append, List.mem_singleton] at hstep
          rcases hstep with hstep | hstep
          · subst hstep
            exact ⟨i, le_refl i, rfl, by rw [ho]; rfl⟩
          · obtain ⟨j, hij, hiter, hsome⟩ := hprop step hstep
            exact ⟨j, by omega, hiter, hsome⟩

lemma refine_capture_history_eq {U : Type} (s : Settings)
    (oracle : ℕ → Option Analysis) (render : Viewpoint → U) (viewpoint : Viewpoint)
    (building_lat building_lon : ℝ) :
    (refine_capture s oracle render viewpoint building_lat building_lon).refinement_history =
    (refineLoop s oracle render viewpoint building_lat building_lon
      s.max_refinement_iterations 0 s.max_refinement_iterations
      (initialState viewpoint)).history := by
  simp only [refine_capture]
  split <;> rfl

/-- **C7.** If the oracle returns no structured response on the very
first iteration, `refine_capture` returns the unrefined original with
`is_refined = false` and an empty history; and in general every
recorded `RefinementStep` stems from a successful oracle call (step
`iteration` is 1-based, so step `i+1` requires `oracle i` to be
`some`). -/
theorem refine_capture_fallback {U : Type} (s : Settings)
    (oracle : ℕ → Option Analysis) (render : Viewpoint → U) (viewpoint : Viewpoint)
    (building_lat building_lon : ℝ) :
    (oracle 0 = none →
      (refine_capture s oracle render viewpoint building_lat building_lon).is_refined = false ∧
      (refine_capture s oracle render viewpoint building_lat building_lon).refinement_history = [] ∧
      (refine_capture s oracle render viewpoint building_lat building_lon).viewpoint = viewpoint) ∧
    (∀ step ∈ (refine_capture s oracle render viewpoint
        building_lat building_lon).refinement_history,
      (oracle (step.iteration - 1)).isSome = true) := by
  constructor
  · intro h0
    have hloop := refineLoop_none s oracle render viewpoint building_lat building_lon
      s.max_refinement_iterations 0 h0 s.max_refinement_iterations
      (initialState viewpoint)
    simp only [refine_capture]
    rw [show (refineLoop s oracle render viewpoint building_lat building_lon
        s.max_refinement_iterations 0 s.max_refinement_iterations
        { history := [], best := none, best_score := -1,
          current :=
            { lat := viewpoint.lat, lon := viewpoint.lon, heading := viewpoint.heading,
              pitch := viewpoint.pitch, fov := viewpoint.fov,
              distance := viewpoint.distance_to_building } }) =
        initialState viewpoint from hloop]
    exact ⟨rfl, rfl, rfl⟩
  · intro step hstep
    rw [refine_capture_history_eq] at hstep
    obtain ⟨extra, hext, hprop⟩ := refineLoop_history_shape s oracle render viewpoint
      building_lat building_lon s.max_refinement_iterations
      s.max_refinement_iterations 0 (initialState viewpoint)
    rw [hext] at hstep
    rw [show (initialState (U := U) viewpoint).history = [] from rfl,
      List.nil_append] at hstep
    obtain ⟨j, _, hiter, hsome⟩ := hprop step hstep
    rw [hiter]
    simpa using hsome

/-- Witness for C7 with the always-failing oracle. -/
theorem refine_capture_fallback_witness :
    ((fun _ : ℕ => (none : Option Analysis)) 0 = none) ∧
    (refine_capture defaultSettings (fun _ => none) (fun _ => ())
      { lat := 0, lon := 0, heading := 0, pitch := 0, fov := 80,
        distance_to_building := 20, quality_score := 0, pano_id := none,
        capture_date := none, road_type := "road" } 0 0).is_refined = false ∧
    (refine_capture defaultSettings (fun _ => none) (fun _ => ())
      { lat := 0, lon := 0, heading := 0, pitch := 0, fov := 80,
        distance_to_building := 20, quality_score := 0, pano_id := none,
        capture_date := none, road_type := "road" } 0 0).refinement_history = [] :=
  ⟨rfl,
    ((refine_capture_fallback defaultSettings (fun _ => none) (fun _ => ())
      { lat := 0, lon := 0, heading := 0, pitch := 0, fov := 80,
        distance_to_building := 20, quality_score := 0, pano_id := none,
        capture_date := none, road_type := "road" } 0 0).1 rfl).1,
    ((refine_capture_fallback defaultSettings (fun _ => none) (fun _ => ())
      { lat := 0, lon := 0, heading := 0, pitch := 0, fov := 80,
        distance_to_building := 20, quality_score := 0, pano_id := none,
        capture_date := none, road_type := "road" } 0 0).1 rfl).2.1⟩

lemma cos_atan2 (a b : ℝ) (h : ¬(b = 0 ∧ a = 0)) :
    Real.cos (atan2 a b) = b / Real.sqrt (b ^ 2 + a ^ 2) := by
  unfold atan2
  have hz : (⟨b, a⟩ : ℂ) ≠ 0 := by
    intro hz
    rw [Complex.ext_iff] at hz
    simp only [Complex.zero_re, Complex.zero_im] at hz
    exact h hz
  have hc := Complex.cos_arg hz
  rw [Complex.abs_apply, Complex.normSq_mk] at hc
  convert hc using 3
  ring

set_option maxHeartbeats 1000000 in
/-- Purely algebraic core of the destination-point/haversine round trip:
with `a,b` (resp. `c,d` and `e,f`) sine/cosine pairs, `b ≥ 0`, and
`s = a·d + b·c·f` the sine of the destination latitude,
`a·s + b·√(1-s²)·cos(atan2 (e·c·b) (d - a·s)) = d`, i.e. the spherical
law of cosines holds for the projected point. -/
lemma central_angle_algebra (a b c d e f s : ℝ)
    (p1 : a ^ 2 + b ^ 2 = 1) (pd : c ^ 2 + d ^ 2 = 1) (pt : e ^ 2 + f ^ 2 = 1)
    (hb : 0 ≤ b) (hs : s = a * d + b * c * f) :
    a * s + b * Real.sqrt (1 - s ^ 2) *
      Real.cos (atan2 (e * c * b) (d - a * s)) = d := by
  have hkey : s ^ 2 + (b * d - a * c * f) ^ 2 + (e * c) ^ 2 = 1 := by
    rw [hs]
    linear_combination (d ^ 2 + c ^ 2 * f ^ 2) * p1 + c ^ 2 * pt + pd
  have hs2 : s ^ 2 ≤ 1 := by
    nlinarith [sq_nonneg (b * d - a * c * f), sq_nonneg (e * c)]
  have h1s : 0 ≤ 1 - s ^ 2 := by linarith
  have hss : Real.sqrt (1 - s ^ 2) ^ 2 = 1 - s ^ 2 := Real.sq_sqrt h1s
  have hB : d - a * s = b * (b * d - a * c * f) := by
    rw [hs]
    linear_combination (-d) * p1
  have hAB : (d - a * s) ^ 2 + (e * c * b) ^ 2 = (b * Real.sqrt (1 - s ^ 2)) ^ 2 := by
    rw [hB]
    linear_combination b ^ 2 * hkey - b ^ 2 * hss
  by_cases hz : (d - a * s) = 0 ∧ (e * c * b) = 0
  · have h0 : b * Real.sqrt (1 - s ^ 2) = 0 := by
      have hsq : (b * Real.sqrt (1 - s ^ 2)) ^ 2 = 0 := by
        rw [← hAB, hz.1, hz.2]
        ring
      exact pow_eq_zero_iff two_ne_zero |>.mp hsq
    rw [h0, zero_mul, add_zero]
    rcases mul_eq_zero.mp h0 with hb0 | hsq
    · rw [hs]
      linear_combination d * p1 + (a * c * f - b * d) * hb0
    · have hs1 : 1 - s ^ 2 = 0 := (Real.sqrt_eq_zero h1s).mp hsq
      have hu : b * d - a * c * f = 0 := by
        nlinarith [sq_nonneg (b * d - a * c * f), sq_nonneg (e * c)]
      rw [hs]
      linear_combination d * p1 + (-b) * hu
  · have hcos := cos_atan2 (e * c * b) (d - a * s) hz
    rw [hcos]
    have hsqrt : Real.sqrt ((d - a * s) ^ 2 + (e * c * b) ^ 2) =
        b * Real.sqrt (1 - s ^ 2) := by
      rw [hAB]
      exact Real.sqrt_sq (mul_nonneg hb (Real.sqrt_nonneg _))
    rw [hsqrt]
    have hne : b * Real.sqrt (1 - s ^ 2) ≠ 0 := by
      intro hzz
      rw [hzz] at hAB
      have h1 : d - a * s = 0 := by
        nlinarith [sq_nonneg (d - a * s), sq_nonneg (e * c * b)]
      have h2 : e * c * b = 0 := by
        nlinarith [sq_nonneg (d - a * s), sq_nonneg (e * c * b)]
      exact hz ⟨h1, h2⟩
    rw [mul_comm (b * Real.sqrt (1 - s ^ 2))
      ((d - a * s) / (b * Real.sqrt (1 - s ^ 2))), div_mul_cancel₀ _ hne]
    ring

set_option maxHeartbeats 1000000 in
/-- The haversine quantity `a` evaluated between an origin at latitude
`φ1` (radians) and the destination point projected at angular distance
`δ` along bearing `θ` equals `(1 - cos δ)/2 = sin²(δ/2)`. -/
lemma offset_haversine_a (φ1 δ θ : ℝ) (hφ : |φ1| ≤ Real.pi / 2) :
    Real.sin ((Real.arcsin (Real.sin φ1 * Real.cos δ +
        Real.cos φ1 * Real.sin δ * Real.cos θ) - φ1) / 2) ^ 2 +
      Real.cos φ1 *
        Real.cos (Real.arcsin (Real.sin φ1 * Real.cos δ +
          Real.cos φ1 * Real.sin δ * Real.cos θ)) *
        Real.sin (atan2 (Real.sin θ * Real.sin δ * Real.cos φ1)
          (Real.cos δ - Real.sin φ1 *
            Real.sin (Real.arcsin (Real.sin φ1 * Real.cos δ +
              Real.cos φ1 * Real.sin δ * Real.cos θ))) / 2) ^ 2 =
    (1 - Real.cos δ) / 2 := by
  have p1 := Real.sin_sq_add_cos_sq φ1
  have pd := Real.sin_sq_add_cos_sq δ
  have pt := Real.sin_sq_add_cos_sq θ
  have habs := abs_le.mp hφ
  have hb : 0 ≤ Real.cos φ1 :=
    Real.cos_nonneg_of_mem_Icc ⟨by linarith [habs.1], habs.2⟩
  have hkey : (Real.sin φ1 * Real.cos δ + Real.cos φ1 * Real.sin δ * Real.cos θ) ^ 2 +
      (Real.cos φ1 * Real.cos δ - Real.sin φ1 * Real.sin δ * Real.cos θ) ^ 2 +
      (Real.sin θ * Real.sin δ) ^ 2 = 1 := by
    linear_combination (Real.cos δ ^ 2 + Real.sin δ ^ 2 * Real.cos θ ^ 2) * p1 +
      Real.sin δ ^ 2 * pt + pd
  have hs1a : -1 ≤ Real.sin φ1 * Real.cos δ + Real.cos φ1 * Real.sin δ * Real.cos θ := by
    nlinarith [sq_nonneg (Real.cos φ1 * Real.cos δ - Real.sin φ1 * Real.sin δ * Real.cos θ),
      sq_nonneg (Real.sin θ * Real.sin δ),
      sq_nonneg (Real.sin φ1 * Real.cos δ + Real.cos φ1 * Real.sin δ * Real.cos θ + 1)]
  have hs1b : Real.sin φ1 * Real.cos δ + Real.cos φ1 * Real.sin δ * Real.cos θ ≤ 1 := by
    nlinarith [sq_nonneg (Real.cos φ1 * Real.cos δ - Real.sin φ1 * Real.sin δ * Real.cos θ),
      sq_nonneg (Real.sin θ * Real.sin δ),
      sq_nonneg (Real.sin φ1 * Real.cos δ + Real.cos φ1 * Real.sin δ * Real.cos θ - 1)]
  rw [sin_half_sq, sin_half_sq, Real.cos_sub, Real.sin_arcsin hs1a hs1b,
    Real.cos_arcsin]
  have hcentral := central_angle_algebra (Real.sin φ1) (Real.cos φ1) (Real.sin δ)
    (Real.cos δ) (Real.sin θ) (Real.cos θ)
    (Real.sin φ1 * Real.cos δ + Real.cos φ1 * Real.sin δ * Real.cos θ)
    p1 pd pt hb rfl
  linear_combination (-1 / 2) * hcentral

lemma abs_radians_le (lat : ℝ) (h : |lat| ≤ 90) : |radians lat| ≤ Real.pi / 2 := by
  unfold radians
  rw [abs_mul]
  have hπ := Real.pi_pos
  have h2 : |Real.pi / 180| = Real.pi / 180 := abs_of_pos (by positivity)
  rw [h2]
  nlinarith

set_option maxHeartbeats 1000000 in
/-- Round trip at degree level: the haversine distance from an origin to
the point `calculate_position_offset` projects at `d ≤ 800` meters is
exactly `d` rescaled by the ratio of the two Earth radii used in
`geo.py`. -/
lemma calculate_distance_of_offset (lat lon d brg : ℝ) (hlat : |lat| ≤ 90)
    (hd0 : 0 ≤ d) (hd8 : d ≤ 800) :
    calculate_distance lat lon (calculate_position_offset lat lon d brg).1
      (calculate_position_offset lat lon d brg).2 = 6371000 * (d / 6378137) := by
  simp only [calculate_position_offset, calculate_distance]
  have e3 : radians (degrees (Real.arcsin (Real.sin (radians lat) *
      Real.cos (d / 6378137) +
      Real.cos (radians lat) * Real.sin (d / 6378137) * Real.cos (radians brg)))) =
      Real.arcsin (Real.sin (radians lat) * Real.cos (d / 6378137) +
      Real.cos (radians lat) * Real.sin (d / 6378137) * Real.cos (radians brg)) :=
    radians_degrees _
  have e1 : ∀ z : ℝ, radians (degrees z - lat) = z - radians lat := by
    intro z
    rw [radians_sub, radians_degrees]
  have e2 : ∀ z : ℝ, radians (degrees (radians lon + z) - lon) = z := by
    intro z
    rw [radians_sub, radians_degrees]
    ring
  rw [e1, e2, e3]
  have hδ0 : 0 ≤ d / 6378137 := by positivity
  have hδπ : d / 6378137 ≤ Real.pi := by
    have h3 := Real.pi_gt_three
    nlinarith
  have ha := offset_haversine_a (radians lat) (d / 6378137) (radians brg)
    (abs_radians_le lat hlat)
  rw [ha]
  have h1 : (1 : ℝ) - (1 - Real.cos (d / 6378137)) / 2 =
      (1 + Real.cos (d / 6378137)) / 2 := by ring
  rw [h1, ← sin_half_sq, ← cos_half_sq]
  have hsin0 : 0 ≤ Real.sin (d / 6378137 / 2) :=
    Real.sin_nonneg_of_nonneg_of_le_pi (by linarith) (by linarith [Real.pi_pos])
  have hcos0 : 0 ≤ Real.cos (d / 6378137 / 2) :=
    Real.cos_nonneg_of_mem_Icc ⟨by linarith [Real.pi_pos], by linarith⟩
  rw [Real.sqrt_sq hsin0, Real.sqrt_sq hcos0,
    atan2_sin_cos (d / 6378137 / 2) (by linarith [Real.pi_pos]) (by linarith)]
  simp only [EARTH_RADIUS_M]
  ring

lemma _apply_adjustments_latlon (s : Settings) (params : Params)
    (adjustments : Adjustments) (building_lat building_lon : ℝ)
    (hne : (_apply_adjustments s params adjustments building_lat building_lon).distance ≠
      params.distance) :
    (_apply_adjustments s params adjustments building_lat building_lon).lat =
      (calculate_position_offset building_lat building_lon
        (_apply_adjustments s params adjustments building_lat building_lon).distance
        (pymod (params.heading + 180) 360)).1 ∧
    (_apply_adjustments s params adjustments building_lat building_lon).lon =
      (calculate_position_offset building_lat building_lon
        (_apply_adjustments s params adjustments building_lat building_lon).distance
        (pymod (params.heading + 180) 360)).2 := by
  rw [_apply_adjustments_distance] at hne ⊢
  simp only [_apply_adjustments]
  rw [if_pos hne]
  exact ⟨rfl, rfl⟩

/-- **C6.** Whenever a refinement distance adjustment is accepted (the
clamped new distance differs from the old one), the recomputed position
is exactly the destination point projected from the building along
`(heading + 180) mod 360` at the new distance, the heading is unchanged,
and the haversine distance from the recomputed position back to the
building differs from the new distance by at most 1 meter (for settings
whose distance range lies in `[0, 800]`, which holds for the defaults
`[8, 65]`, and a building latitude in valid range). -/
theorem refinement_reposition_consistent (s : Settings) (params : Params)
    (adjustments : Adjustments) (building_lat building_lon : ℝ)
    (hblat : |building_lat| ≤ 90) (h0 : 0 ≤ s.min_distance)
    (hmm : s.min_distance ≤ s.max_distance) (h800 : s.max_distance ≤ 800)
    (hchanged : (_apply_adjustments s params adjustments building_lat building_lon).distance ≠
      params.distance) :
    ((_apply_adjustments s params adjustments building_lat building_lon).lat,
     (_apply_adjustments s params adjustments building_lat building_lon).lon) =
      calculate_position_offset building_lat building_lon
        (_apply_adjustments s params adjustments building_lat building_lon).distance
        (pymod (params.heading + 180) 360) ∧
    (_apply_adjustments s params adjustments building_lat building_lon).heading =
      params.heading ∧
    |calculate_distance
        (_apply_adjustments s params adjustments building_lat building_lon).lat
        (_apply_adjustments s params adjustments building_lat building_lon).lon
        building_lat building_lon -
      (_apply_adjustments s params adjustments building_lat building_lon).distance| ≤ 1 := by
  obtain ⟨hlat, hlon⟩ :=
    _apply_adjustments_latlon s params adjustments building_lat building_lon hchanged
  have hnd0 : 0 ≤ (_apply_adjustments s params adjustments
      building_lat building_lon).distance := by
    rw [_apply_adjustments_distance]
    exact le_trans h0 (le_max_left _ _)
  have hnd8 : (_apply_adjustments s params adjustments
      building_lat building_lon).distance ≤ 800 := by
    rw [_apply_adjustments_distance]
    exact max_le (le_trans hmm h800) (le_trans (min_le_right _ _) h800)
  refine ⟨?_, _apply_adjustments_heading s params adjustments building_lat building_lon, ?_⟩
  · rw [Prod.ext_iff]
    exact ⟨hlat, hlon⟩
  · rw [hlat, hlon, calculate_distance_symm,
      calculate_distance_of_offset building_lat building_lon _ _ hblat hnd0 hnd8]
    set nd := (_apply_adjustments s params adjustments building_lat building_lon).distance
    rw [abs_of_nonpos (by nlinarith : 6371000 * (nd / 6378137) - nd ≤ 0)]
    nlinarith

/-- Witness for C6: default settings, building at the origin, camera at
distance 20 m heading 0, oracle asking for 5 m more distance. -/
theorem refinement_reposition_consistent_witness :
    ((_apply_adjustments defaultSettings
        { lat := 0, lon := 0.0002, heading := 0, pitch := 0, fov := 80, distance := 20 }
        { distance_change := 5, pitch_change := 0, fov_change := 0 } 0 0).distance ≠
      (20 : ℝ)) ∧
    |calculate_distance
        (_apply_adjustments defaultSettings
          { lat := 0, lon := 0.0002, heading := 0, pitch := 0, fov := 80, distance := 20 }
          { distance_change := 5, pitch_change := 0, fov_change := 0 } 0 0).lat
        (_apply_adjustments defaultSettings
          { lat := 0, lon := 0.0002, heading := 0, pitch := 0, fov := 80, distance := 20 }
          { distance_change := 5, pitch_change := 0, fov_change := 0 } 0 0).lon
        0 0 -
      (_apply_adjustments defaultSettings
        { lat := 0, lon := 0.0002, heading := 0, pitch := 0, fov := 80, distance := 20 }
        { distance_change := 5, pitch_change := 0, fov_change := 0 } 0 0).distance| ≤ 1 := by
  have hne : (_apply_adjustments defaultSettings
      { lat := 0, lon := 0.0002, heading := 0, pitch := 0, fov := 80, distance := 20 }
      { distance_change := 5, pitch_change := 0, fov_change := 0 } 0 0).distance ≠
      (20 : ℝ) := by
    rw [_apply_adjustments_distance]
    simp only [defaultSettings]
    norm_num [min_def, max_def]
  exact ⟨hne,
    (refinement_reposition_consistent defaultSettings
      { lat := 0, lon := 0.0002, heading := 0, pitch := 0, fov := 80, distance := 20 }
      { distance_change := 5, pitch_change := 0, fov_change := 0 } 0 0
      (by norm_num) (by norm_num [defaultSettings]) (by norm_num [defaultSettings])
      (by norm_num [defaultSettings]) hne).2.2⟩

end StreetView
